import Mathlib

/-!
# FRPC 1:1 verification interface and its null implementation

A shallow embedding of `frpc.h` (the data types `Image`, `TemplateRole`,
`ReturnCode`, `ReturnStatus`, `EyePair`) and of `nullImpl/nullimplfrpc11.cpp`
(the engine `NullImplFRPC11` with its four methods).

Conventions of the embedding.

* A `uint8_t`, `uint16_t` or `int` value is a `Nat` or an `Int`; arithmetic that
  can leave the range of its C++ type is written with an explicit wrap.
* A method of the engine is a function of the engine's fields and the
  arguments; it returns the fields after the call together with the return
  value and the out-parameters.
* `std::rand()` reads a hidden global generator: the value it returns is an
  argument of `matchTemplates`.
* A `double` that is assigned from an `int` holds that integer exactly (an
  `int` has at most 31 value bits, a `double` has a 53 bit significand), so the
  similarity score is carried as the `Int` it was converted from.
* An operation whose behaviour C++ leaves undefined (a `memcpy` past the end
  of a buffer) returns `none`.
-/

set_option linter.unusedVariables false

namespace FRPC

/-! ## Machine arithmetic -/

/-- The value of a 32 bit two's complement `int` holding `x` after wrap-around. -/
def wrapInt32 (x : Int) : Int := (x + 2 ^ 31) % 2 ^ 32 - 2 ^ 31

/-- Conversion of an `int` to a 64 bit `size_t`: the value modulo `2 ^ 64`. -/
def toSizeT (x : Int) : Nat := (x % 2 ^ 64).toNat

/-- Largest value of a 32 bit `int`. -/
def INT_MAX : Int := 2 ^ 31 - 1

/-! ## frpc.h : Image -/

/-- `struct Image`: `width`, `height` are `uint16_t`, `depth` is `uint8_t`,
`data` is a `std::shared_ptr<uint8_t>` (`none` is the null pointer). -/
structure Image where
  width : Nat
  height : Nat
  depth : Nat
  data : Option (List Nat)
deriving DecidableEq, Repr

/-- The default constructor `Image()`: width 0, height 0, depth 24, no buffer. -/
def Image.empty : Image := { width := 0, height := 0, depth := 24, data := none }

/-- The field ranges of an `Image` whose depth is one of the two legal values. -/
def Image.wellTyped (img : Image) : Prop :=
  img.width < 2 ^ 16 ∧ img.height < 2 ^ 16 ∧ (img.depth = 8 ∨ img.depth = 24)

instance Image.decidableWellTyped (img : Image) : Decidable img.wellTyped := by
  unfold Image.wellTyped; infer_instance

/-- `Image::size()`: `return (width * height * (depth / 8));`.  The operands
are promoted to `int`, the two products are formed in `int`, and the result is
converted to `size_t`. -/
def Image.size (img : Image) : Nat :=
  toSizeT (wrapInt32 (wrapInt32 ((img.width : Int) * (img.height : Int))
    * ((img.depth / 8 : Nat) : Int)))

/-! ## frpc.h : TemplateRole, ReturnCode, ReturnStatus, EyePair -/

/-- `enum class TemplateRole`. -/
inductive TemplateRole where
  | Enrollment_11
  | Verification_11
deriving DecidableEq, Repr

/-- `enum class ReturnCode`: a scoped enumeration over `int`.  A value of the
type is any `int`; the enumerators below name thirteen of them. -/
structure ReturnCode where
  val : Int
deriving DecidableEq, Repr

namespace ReturnCode

def Success : ReturnCode := ⟨0⟩
def ConfigError : ReturnCode := ⟨1⟩
def RefuseInput : ReturnCode := ⟨2⟩
def ExtractError : ReturnCode := ⟨3⟩
def ParseError : ReturnCode := ⟨4⟩
def TemplateCreationError : ReturnCode := ⟨5⟩
def VerifTemplateError : ReturnCode := ⟨6⟩
def NumDataError : ReturnCode := ⟨7⟩
def TemplateFormatError : ReturnCode := ⟨8⟩
def EnrollDirError : ReturnCode := ⟨9⟩
def InputLocationError : ReturnCode := ⟨10⟩
def GPUError : ReturnCode := ⟨11⟩
def VendorError : ReturnCode := ⟨12⟩

/-- The enumerators in declaration order. -/
def enumerators : List ReturnCode :=
  [Success, ConfigError, RefuseInput, ExtractError, ParseError,
   TemplateCreationError, VerifTemplateError, NumDataError, TemplateFormatError,
   EnrollDirError, InputLocationError, GPUError, VendorError]

/-- `operator<<(std::ostream&, const ReturnCode&)`: the text the `switch`
writes to the stream for `rc`. -/
def print (rc : ReturnCode) : String :=
  if rc = Success then "Success"
  else if rc = ConfigError then "Error reading configuration files"
  else if rc = RefuseInput then "Elective refusal to process the input"
  else if rc = ExtractError then "Involuntary failure to process the image"
  else if rc = ParseError then "Cannot parse the input data"
  else if rc = TemplateCreationError then "Elective refusal to produce a template"
  else if rc = VerifTemplateError then
    "Either/both input templates were result of failed feature extraction"
  else if rc = NumDataError then "Number of input images not supported"
  else if rc = TemplateFormatError then "Template file is an incorrect format or defective"
  else if rc = EnrollDirError then "An operation on the enrollment directory failed"
  else if rc = InputLocationError then
    "Cannot locate the input data - the input file or names seem incorrect"
  else if rc = GPUError then "Problem setting or accessing the GPU"
  else if rc = VendorError then "Vendor-defined error"
  else "Undefined error"

end ReturnCode

/-- `struct ReturnStatus`, built by `ReturnStatus(code, info = "")`. -/
structure ReturnStatus where
  code : ReturnCode
  info : String := ""
deriving DecidableEq, Repr

/-- `struct EyePair`; the coordinates are `uint16_t`. -/
structure EyePair where
  isLeftAssigned : Bool
  isRightAssigned : Bool
  xleft : Nat
  yleft : Nat
  xright : Nat
  yright : Nat
deriving DecidableEq, Repr

/-- The default constructor `EyePair()`. -/
def EyePair.empty : EyePair :=
  { isLeftAssigned := false, isRightAssigned := false,
    xleft := 0, yleft := 0, xright := 0, yright := 0 }

/-! ## Library operations used by the null implementation -/

/-- `std::vector<uint8_t>::resize(n)`: keeps the first `n` elements and appends
zero bytes up to length `n`. -/
def vectorResize (v : List Nat) (n : Nat) : List Nat :=
  v.take n ++ List.replicate (n - v.length) 0

/-- `memcpy(dst, src, n)` on byte buffers: the first `n` bytes of `dst` become
the first `n` bytes of `src`.  Undefined (`none`) when either buffer is shorter
than `n`. -/
def memcpy (dst src : List Nat) (n : Nat) : Option (List Nat) :=
  if n ≤ dst.length ∧ n ≤ src.length then some (src.take n ++ dst.drop n) else none

/-! ## nullimplfrpc11.h / nullimplfrpc11.cpp -/

/-- The private fields of `class NullImplFRPC11`: `std::string configDir`,
`uint8_t whichGPU`, `int counter`. -/
structure NullImplFRPC11 where
  configDir : String
  whichGPU : Nat
  counter : Int
deriving DecidableEq, Repr

/-- What a method that only returns a status leaves behind. -/
structure StatusResult where
  self : NullImplFRPC11
  status : ReturnStatus
deriving DecidableEq, Repr

/-- What `createTemplate` leaves behind: the engine, the status and the two
out-parameters. -/
structure CreateResult where
  self : NullImplFRPC11
  status : ReturnStatus
  templ : List Nat
  eyeCoordinates : EyePair
deriving DecidableEq, Repr

/-- What `matchTemplates` leaves behind: the engine, the status and the
out-parameter `similarity`. -/
structure MatchResult where
  self : NullImplFRPC11
  status : ReturnStatus
  similarity : Int
deriving DecidableEq, Repr

/-- The string literal of `createTemplate`. -/
def blurb : String := "Let the Force be with you...\n"

/-- The bytes of `blurb.c_str()`; every character of the literal is ASCII, so
each is one byte equal to its code point, and `blurb.size()` is their number. -/
def blurbBytes : List Nat := blurb.toList.map Char.toNat

/-- `NullImplFRPC11::initialize`. -/
def NullImplFRPC11.initialize (self : NullImplFRPC11) (configDir : String) : StatusResult :=
  let self1 := { self with whichGPU := 0 }
  let self2 := { self1 with counter := 0 }
  { self := self2, status := { code := ReturnCode.Success } }

/-- `NullImplFRPC11::setGPU`; `gpuNum` is a `uint8_t`. -/
def NullImplFRPC11.setGPU (self : NullImplFRPC11) (gpuNum : Nat) : StatusResult :=
  let self1 := { self with whichGPU := gpuNum % 2 ^ 8 }
  { self := self1, status := { code := ReturnCode.Success } }

/-- `NullImplFRPC11::createTemplate`.  `templ` and `eyeCoordinates` are the
contents of the out-parameters on entry. -/
def NullImplFRPC11.createTemplate (self : NullImplFRPC11) (face : Image) (role : TemplateRole)
    (templ : List Nat) (eyeCoordinates : EyePair) : Option CreateResult :=
  let templ1 := vectorResize templ blurbBytes.length
  match memcpy templ1 blurbBytes blurbBytes.length with
  | none => none
  | some templ2 =>
    let eyeCoordinates1 : EyePair :=
      { isLeftAssigned := true, isRightAssigned := true,
        xleft := 0, yleft := 0, xright := 0, yright := 0 }
    some { self := self, status := { code := ReturnCode.Success },
           templ := templ2, eyeCoordinates := eyeCoordinates1 }

/-- `NullImplFRPC11::matchTemplates`.  `similarity` is the content of the
out-parameter on entry, `randValue` the `int` that `std::rand()` returns. -/
def NullImplFRPC11.matchTemplates (self : NullImplFRPC11) (verifTemplate enrollTemplate : List Nat)
    (similarity : Int) (randValue : Int) : MatchResult :=
  let similarity1 := randValue
  { self := self, status := { code := ReturnCode.Success }, similarity := similarity1 }

/-- An engine right after construction and `initialize("")`. -/
def engine0 : NullImplFRPC11 :=
  ( NullImplFRPC11.initialize { configDir := "", whichGPU := 0, counter := 0 } "").self

/-! ## Lemmas on the library operations -/

theorem vectorResize_length (v : List Nat) (n : Nat) : (vectorResize v n).length = n := by
  unfold vectorResize
  simp only [List.length_append, List.length_take, List.length_replicate]
  omega

theorem memcpy_whole (dst src : List Nat) (h : dst.length = src.length) :
    memcpy dst src src.length = some src := by
  unfold memcpy
  have hdrop : dst.drop src.length = [] := List.drop_eq_nil_of_le (le_of_eq h)
  simp [h, hdrop]

theorem blurbBytes_eq :
    blurbBytes = [76, 101, 116, 32, 116, 104, 101, 32, 70, 111, 114, 99, 101, 32, 98, 101, 32,
      119, 105, 116, 104, 32, 121, 111, 117, 46, 46, 46, 10] := by
  decide

theorem blurbBytes_length : blurbBytes.length = 29 := by
  decide

/-- Every character of the blurb is ASCII: one byte in `c_str()`. -/
theorem blurbBytes_ascii : ∀ b ∈ blurbBytes, b < 128 := by
  decide

/-- The result of `createTemplate` in closed form: the call always returns,
with status `Success`, the bytes of the blurb and both eyes assigned at the
origin, whatever the image, the role and the vector's content on entry. -/
theorem createTemplate_eq (self : NullImplFRPC11) (face : Image) (role : TemplateRole)
    (templ : List Nat) (eyeCoordinates : EyePair) :
    NullImplFRPC11.createTemplate self face role templ eyeCoordinates =
      some { self := self, status := { code := ReturnCode.Success, info := "" },
             templ := blurbBytes,
             eyeCoordinates := { isLeftAssigned := true, isRightAssigned := true,
                                 xleft := 0, yleft := 0, xright := 0, yright := 0 } } := by
  unfold NullImplFRPC11.createTemplate
  simp only [memcpy_whole _ _ (vectorResize_length templ blurbBytes.length)]

/-! ## createTemplate -/

/-- C1: template creation is total.  For every image (any width, height, depth
and buffer, the 0x0 image without buffer included), both roles and every
content of the output vector on entry, `createTemplate` returns a status and
leaves in `templ` the 29 bytes of the blurb, a non-empty sequence; passing that
sequence to `matchTemplates` as either argument returns a status. -/
theorem createTemplate_total (self : NullImplFRPC11) (face : Image) (role : TemplateRole)
    (templ : List Nat) (eyeCoordinates : EyePair) (other : List Nat)
    (similarity randValue : Int) :
    ∃ res : CreateResult,
      NullImplFRPC11.createTemplate self face role templ eyeCoordinates = some res ∧
      res.status = { code := ReturnCode.Success, info := "" } ∧
      res.templ = blurbBytes ∧
      res.templ = [76, 101, 116, 32, 116, 104, 101, 32, 70, 111, 114, 99, 101, 32, 98, 101, 32,
        119, 105, 116, 104, 32, 121, 111, 117, 46, 46, 46, 10] ∧
      res.templ.length = 29 ∧ res.templ ≠ [] ∧
      (NullImplFRPC11.matchTemplates res.self res.templ other similarity randValue).status =
        { code := ReturnCode.Success, info := "" } ∧
      (NullImplFRPC11.matchTemplates res.self other res.templ similarity randValue).status =
        { code := ReturnCode.Success, info := "" } := by
  refine ⟨_, createTemplate_eq self face role templ eyeCoordinates, rfl, rfl, blurbBytes_eq, ?_, ?_,
    rfl, rfl⟩
  · exact blurbBytes_length
  · show blurbBytes ≠ []
    decide

/-- C3, as the code has it: on a 0x0 image and for either role `createTemplate`
returns `Success` with an empty info string, and still leaves the 29 byte
template in `templ`. -/
theorem createTemplate_zero_image_success (self : NullImplFRPC11) (face : Image)
    (role : TemplateRole) (templ : List Nat) (eyeCoordinates : EyePair)
    (hw : face.width = 0) (hh : face.height = 0) :
    ∃ res : CreateResult,
      NullImplFRPC11.createTemplate self face role templ eyeCoordinates = some res ∧
      res.status.code = ReturnCode.Success ∧ res.status.info = "" ∧
      res.templ = blurbBytes ∧ res.templ.length = 29 :=
  ⟨_, createTemplate_eq self face role templ eyeCoordinates, rfl, rfl, rfl, blurbBytes_length⟩

/-- The amended C3 at the image `Image()` and the verification role. -/
theorem createTemplate_zero_image_success_witness :
    Image.empty.width = 0 ∧ Image.empty.height = 0 ∧
    ∃ res : CreateResult,
      NullImplFRPC11.createTemplate engine0 Image.empty TemplateRole.Verification_11 []
        EyePair.empty = some res ∧
      res.status.code = ReturnCode.Success ∧ res.status.info = "" ∧
      res.templ = blurbBytes ∧ res.templ.length = 29 :=
  ⟨rfl, rfl, createTemplate_zero_image_success engine0 Image.empty TemplateRole.Verification_11 []
    EyePair.empty rfl rfl⟩

/-- C3 as stated fails: on the 0x0 image `Image()` the returned code is
`Success`, for the enrollment role and for the verification role. -/
theorem createTemplate_zero_image_not_failure :
    (∃ res : CreateResult,
      NullImplFRPC11.createTemplate engine0 Image.empty TemplateRole.Enrollment_11 []
        EyePair.empty = some res ∧ ¬ (res.status.code ≠ ReturnCode.Success)) ∧
    (∃ res : CreateResult,
      NullImplFRPC11.createTemplate engine0 Image.empty TemplateRole.Verification_11 []
        EyePair.empty = some res ∧ ¬ (res.status.code ≠ ReturnCode.Success)) :=
  ⟨⟨_, createTemplate_eq _ _ _ _ _, fun h => h rfl⟩, ⟨_, createTemplate_eq _ _ _ _ _, fun h => h rfl⟩⟩

/-- C5 at the failing input: for the 0x0 image `Image()` the returned eye pair
has both flags set although no coordinate is below the image's width or
height (all four coordinates are 0, and so are the width and the height). -/
theorem createTemplate_zero_image_eyes_out_of_range :
    ∃ res : CreateResult,
      NullImplFRPC11.createTemplate engine0 Image.empty TemplateRole.Enrollment_11 []
        EyePair.empty = some res ∧
      res.eyeCoordinates.isLeftAssigned = true ∧
      ¬ (res.eyeCoordinates.xleft < Image.empty.width) ∧
      ¬ (res.eyeCoordinates.yleft < Image.empty.height) ∧
      res.eyeCoordinates.isRightAssigned = true ∧
      ¬ (res.eyeCoordinates.xright < Image.empty.width) ∧
      ¬ (res.eyeCoordinates.yright < Image.empty.height) :=
  ⟨_, createTemplate_eq _ _ _ _ _, rfl, by decide, by decide, rfl, by decide, by decide⟩

/-- The eye coordinates that `createTemplate` reports lie inside every image
that has at least one pixel. -/
theorem createTemplate_eyes_in_range (self : NullImplFRPC11) (face : Image)
    (role : TemplateRole) (templ : List Nat) (eyeCoordinates : EyePair)
    (hw : 0 < face.width) (hh : 0 < face.height) :
    ∃ res : CreateResult,
      NullImplFRPC11.createTemplate self face role templ eyeCoordinates = some res ∧
      (res.eyeCoordinates.isLeftAssigned = true →
        res.eyeCoordinates.xleft < face.width ∧ res.eyeCoordinates.yleft < face.height) ∧
      (res.eyeCoordinates.isRightAssigned = true →
        res.eyeCoordinates.xright < face.width ∧ res.eyeCoordinates.yright < face.height) :=
  ⟨_, createTemplate_eq self face role templ eyeCoordinates, fun _ => ⟨hw, hh⟩,
    fun _ => ⟨hw, hh⟩⟩

/-- The eye coordinates lie inside a 640x480 image. -/
theorem createTemplate_eyes_in_range_witness :
    ∃ res : CreateResult,
      NullImplFRPC11.createTemplate engine0
        { width := 640, height := 480, depth := 24, data := none }
        TemplateRole.Enrollment_11 [] EyePair.empty = some res ∧
      (res.eyeCoordinates.isLeftAssigned = true →
        res.eyeCoordinates.xleft < 640 ∧ res.eyeCoordinates.yleft < 480) ∧
      (res.eyeCoordinates.isRightAssigned = true →
        res.eyeCoordinates.xright < 640 ∧ res.eyeCoordinates.yright < 480) :=
  createTemplate_eyes_in_range engine0 { width := 640, height := 480, depth := 24, data := none }
    TemplateRole.Enrollment_11 [] EyePair.empty (by decide) (by decide)

/-! ## matchTemplates -/

/-- The result of `matchTemplates` in closed form. -/
theorem matchTemplates_eq (self : NullImplFRPC11) (verifTemplate enrollTemplate : List Nat)
    (similarity randValue : Int) :
    NullImplFRPC11.matchTemplates self verifTemplate enrollTemplate similarity randValue =
      { self := self, status := { code := ReturnCode.Success, info := "" },
        similarity := randValue } :=
  rfl

/-- C4: for every pair of templates (so for every pair that is not a failed
extraction sentinel, such as two templates that `createTemplate` returned with
`Success`) and every value `std::rand()` can return, an `int` between 0 and
`RAND_MAX`, `matchTemplates` returns `Success` and a similarity that is at
least 0 and at most `RAND_MAX`, itself at most `INT_MAX` (hence finite as a
`double`), so never -1. -/
theorem matchTemplates_success_nonneg (RAND_MAX : Int) (self : NullImplFRPC11)
    (verifTemplate enrollTemplate : List Nat) (similarity randValue : Int)
    (hmax : RAND_MAX ≤ INT_MAX) (h0 : 0 ≤ randValue) (h1 : randValue ≤ RAND_MAX) :
    (NullImplFRPC11.matchTemplates self verifTemplate enrollTemplate similarity
      randValue).status.code = ReturnCode.Success ∧
    0 ≤ (NullImplFRPC11.matchTemplates self verifTemplate enrollTemplate similarity
      randValue).similarity ∧
    (NullImplFRPC11.matchTemplates self verifTemplate enrollTemplate similarity
      randValue).similarity ≤ RAND_MAX ∧
    (NullImplFRPC11.matchTemplates self verifTemplate enrollTemplate similarity
      randValue).similarity ≤ INT_MAX ∧
    (NullImplFRPC11.matchTemplates self verifTemplate enrollTemplate similarity
      randValue).similarity ≠ -1 := by
  rw [matchTemplates_eq]
  refine ⟨rfl, h0, h1, le_trans h1 hmax, ?_⟩
  show randValue ≠ -1
  omega

/-- The statement of C4 at two blurb templates, `RAND_MAX = 2147483647` and
`std::rand()` returning 1804289383. -/
theorem matchTemplates_success_nonneg_witness :
    ((2147483647 : Int) ≤ INT_MAX ∧ (0 : Int) ≤ 1804289383 ∧
      (1804289383 : Int) ≤ 2147483647) ∧
    (NullImplFRPC11.matchTemplates engine0 blurbBytes blurbBytes 0 1804289383).status.code =
      ReturnCode.Success ∧
    0 ≤ (NullImplFRPC11.matchTemplates engine0 blurbBytes blurbBytes 0 1804289383).similarity ∧
    (NullImplFRPC11.matchTemplates engine0 blurbBytes blurbBytes 0 1804289383).similarity
      ≤ 2147483647 ∧
    (NullImplFRPC11.matchTemplates engine0 blurbBytes blurbBytes 0 1804289383).similarity
      ≤ INT_MAX ∧
    (NullImplFRPC11.matchTemplates engine0 blurbBytes blurbBytes 0 1804289383).similarity ≠ -1 :=
  ⟨by decide, matchTemplates_success_nonneg 2147483647 engine0 blurbBytes blurbBytes 0 1804289383
    (by decide) (by decide) (by decide)⟩

/-- C2, as the code has it: when both templates come from `createTemplate` on a
0x0 image (either role), `matchTemplates` returns `Success` and sets the
similarity to the value `std::rand()` returned, which is at least 0 and so is
not -1. -/
theorem matchTemplates_zero_image_templates (self : NullImplFRPC11) (face1 face2 : Image)
    (role1 role2 : TemplateRole) (templ1 templ2 : List Nat) (eye1 eye2 : EyePair)
    (similarity randValue : Int)
    (hw1 : face1.width = 0) (hh1 : face1.height = 0)
    (hw2 : face2.width = 0) (hh2 : face2.height = 0) (h0 : 0 ≤ randValue) :
    ∃ rv re : CreateResult,
      NullImplFRPC11.createTemplate self face1 role1 templ1 eye1 = some rv ∧
      NullImplFRPC11.createTemplate self face2 role2 templ2 eye2 = some re ∧
      (NullImplFRPC11.matchTemplates self rv.templ re.templ similarity randValue).status.code
        = ReturnCode.Success ∧
      (NullImplFRPC11.matchTemplates self rv.templ re.templ similarity randValue).similarity
        = randValue ∧
      (NullImplFRPC11.matchTemplates self rv.templ re.templ similarity randValue).similarity
        ≠ -1 := by
  refine ⟨_, _, createTemplate_eq self face1 role1 templ1 eye1,
    createTemplate_eq self face2 role2 templ2 eye2, rfl, rfl, ?_⟩
  show randValue ≠ -1
  omega

/-- The amended C2 at two templates of the image `Image()` and `std::rand()`
returning 846930886. -/
theorem matchTemplates_zero_image_templates_witness :
    (Image.empty.width = 0 ∧ Image.empty.height = 0 ∧ (0 : Int) ≤ 846930886) ∧
    ∃ rv re : CreateResult,
      NullImplFRPC11.createTemplate engine0 Image.empty TemplateRole.Verification_11 []
        EyePair.empty = some rv ∧
      NullImplFRPC11.createTemplate engine0 Image.empty TemplateRole.Enrollment_11 []
        EyePair.empty = some re ∧
      (NullImplFRPC11.matchTemplates engine0 rv.templ re.templ 0 846930886).status.code
        = ReturnCode.Success ∧
      (NullImplFRPC11.matchTemplates engine0 rv.templ re.templ 0 846930886).similarity
        = 846930886 ∧
      (NullImplFRPC11.matchTemplates engine0 rv.templ re.templ 0 846930886).similarity ≠ -1 :=
  ⟨⟨rfl, rfl, by decide⟩,
    matchTemplates_zero_image_templates engine0 Image.empty Image.empty
      TemplateRole.Verification_11 TemplateRole.Enrollment_11 [] [] EyePair.empty
      EyePair.empty 0 846930886 rfl rfl rfl rfl (by decide)⟩

/-- C2 as stated fails: with both templates made from the 0x0 image `Image()`
and `std::rand()` returning 0, `matchTemplates` returns a code other than
`VerifTemplateError` and a similarity other than -1. -/
theorem matchTemplates_zero_image_not_VerifTemplateError :
    ∃ rv re : CreateResult,
      NullImplFRPC11.createTemplate engine0 Image.empty TemplateRole.Verification_11 []
        EyePair.empty = some rv ∧
      NullImplFRPC11.createTemplate engine0 Image.empty TemplateRole.Enrollment_11 []
        EyePair.empty = some re ∧
      (NullImplFRPC11.matchTemplates engine0 rv.templ re.templ 0 0).status.code
        ≠ ReturnCode.VerifTemplateError ∧
      (NullImplFRPC11.matchTemplates engine0 rv.templ re.templ 0 0).similarity ≠ -1 :=
  ⟨_, _, createTemplate_eq _ _ _ _ _, createTemplate_eq _ _ _ _ _, by decide, by decide⟩

/-- C8: `createTemplate` and `matchTemplates` leave the engine's fields
`whichGPU`, `counter` and `configDir` as they were, for every engine state and
every input. -/
theorem createTemplate_matchTemplates_frame (self : NullImplFRPC11) (face : Image)
    (role : TemplateRole) (templ : List Nat) (eyeCoordinates : EyePair)
    (verifTemplate enrollTemplate : List Nat) (similarity randValue : Int) :
    (∃ res : CreateResult,
      NullImplFRPC11.createTemplate self face role templ eyeCoordinates = some res ∧
      res.self.whichGPU = self.whichGPU ∧ res.self.counter = self.counter ∧
      res.self.configDir = self.configDir) ∧
    (NullImplFRPC11.matchTemplates self verifTemplate enrollTemplate similarity
      randValue).self.whichGPU = self.whichGPU ∧
    (NullImplFRPC11.matchTemplates self verifTemplate enrollTemplate similarity
      randValue).self.counter = self.counter ∧
    (NullImplFRPC11.matchTemplates self verifTemplate enrollTemplate similarity
      randValue).self.configDir = self.configDir :=
  ⟨⟨_, createTemplate_eq self face role templ eyeCoordinates, rfl, rfl, rfl⟩, rfl, rfl, rfl⟩

/-! ## initialize and setGPU -/

/-- C9: for every `configDir` string and every engine state on entry,
`initialize` returns a status with code `Success` and empty info, and leaves the
engine with `whichGPU = 0` and `counter = 0`. -/
theorem initialize_returns_Success (self : NullImplFRPC11) (configDir : String) :
    ( NullImplFRPC11.initialize self configDir).status.code = ReturnCode.Success ∧
    ( NullImplFRPC11.initialize self configDir).status.info = "" ∧
    ( NullImplFRPC11.initialize self configDir).self.whichGPU = 0 ∧
    ( NullImplFRPC11.initialize self configDir).self.counter = 0 :=
  ⟨rfl, rfl, rfl, rfl⟩

/-- C7, as the code has it: on an engine that `initialize` has just set up
(stored device index 0), `setGPU(255)` returns `Success` with empty info and
stores 255 as the device index; `counter` and `configDir` stay as they were. -/
theorem setGPU_255_stores_index (self : NullImplFRPC11) (configDir : String) :
    ( NullImplFRPC11.initialize self configDir).self.whichGPU = 0 ∧
    (NullImplFRPC11.setGPU ( NullImplFRPC11.initialize self configDir).self 255).status =
      { code := ReturnCode.Success, info := "" } ∧
    (NullImplFRPC11.setGPU ( NullImplFRPC11.initialize self configDir).self 255).self.whichGPU
      = 255 ∧
    (NullImplFRPC11.setGPU ( NullImplFRPC11.initialize self configDir).self 255).self.counter
      = ( NullImplFRPC11.initialize self configDir).self.counter ∧
    (NullImplFRPC11.setGPU ( NullImplFRPC11.initialize self configDir).self 255).self.configDir
      = ( NullImplFRPC11.initialize self configDir).self.configDir :=
  ⟨rfl, rfl, rfl, rfl, rfl⟩

/-- C7 as stated fails: on the freshly initialised engine, whose device index
is 0, `setGPU(255)` returns a code other than `GPUError` and the device index
is no longer 0. -/
theorem setGPU_255_not_GPUError :
    engine0.whichGPU = 0 ∧
    (NullImplFRPC11.setGPU engine0 255).status.code ≠ ReturnCode.GPUError ∧
    (NullImplFRPC11.setGPU engine0 255).self.whichGPU ≠ engine0.whichGPU := by
  decide

/-! ## Image::size -/

theorem wrapInt32_of_fits (x : Int) (h0 : 0 ≤ x) (h1 : x ≤ INT_MAX) : wrapInt32 x = x := by
  unfold INT_MAX at h1
  unfold wrapInt32
  omega

theorem toSizeT_of_fits (x : Int) (h0 : 0 ≤ x) (h1 : x ≤ INT_MAX) : (toSizeT x : Int) = x := by
  unfold INT_MAX at h1
  unfold toSizeT
  rw [Int.toNat_of_nonneg (by omega)]
  omega

theorem size_arith_of_fits (w h q : Nat) (hq : 1 ≤ q) (hfit : w * h * q ≤ 2 ^ 31 - 1) :
    toSizeT (wrapInt32 (wrapInt32 ((w : Int) * (h : Int)) * (q : Int))) = w * h * q := by
  have hwh : w * h ≤ 2 ^ 31 - 1 := le_trans (Nat.le_mul_of_pos_right _ hq) hfit
  have c1 : ((w * h : Nat) : Int) ≤ ((2 ^ 31 - 1 : Nat) : Int) := Int.ofNat_le.mpr hwh
  have c2 : ((w * h * q : Nat) : Int) ≤ ((2 ^ 31 - 1 : Nat) : Int) := Int.ofNat_le.mpr hfit
  simp only [Nat.cast_mul] at c1 c2
  have h1 : (w : Int) * (h : Int) ≤ INT_MAX := by
    unfold INT_MAX
    omega
  have h2 : (w : Int) * (h : Int) * (q : Int) ≤ INT_MAX := by
    unfold INT_MAX
    omega
  have hnn1 : (0 : Int) ≤ (w : Int) * (h : Int) := by positivity
  have hnn2 : (0 : Int) ≤ (w : Int) * (h : Int) * (q : Int) := by positivity
  have key : ((toSizeT (wrapInt32 (wrapInt32 ((w : Int) * (h : Int)) * (q : Int))) : Nat) : Int)
      = ((w * h * q : Nat) : Int) := by
    rw [wrapInt32_of_fits _ hnn1 h1, wrapInt32_of_fits _ hnn2 h2, toSizeT_of_fits _ hnn2 h2]
    simp only [Nat.cast_mul]
  exact Int.ofNat_inj.mp key

/-- For an image whose byte count `width * height * (depth / 8)` fits an `int`,
`Image::size()` is that byte count. -/
theorem Image.size_of_fits (img : Image) (hd : img.depth = 8 ∨ img.depth = 24)
    (hfit : img.width * img.height * (img.depth / 8) ≤ 2 ^ 31 - 1) :
    img.size = img.width * img.height * (img.depth / 8) := by
  have hq : 1 ≤ img.depth / 8 := by
    rcases hd with h | h <;> simp [h]
  exact size_arith_of_fits img.width img.height (img.depth / 8) hq hfit

/-- A 640x480 image of depth 24 has 921600 bytes. -/
theorem Image.size_of_fits_witness :
    (({ width := 640, height := 480, depth := 24, data := none } : Image).depth = 8 ∨
      ({ width := 640, height := 480, depth := 24, data := none } : Image).depth = 24) ∧
    ({ width := 640, height := 480, depth := 24, data := none } : Image).size = 640 * 480 * (24 / 8) :=
  ⟨Or.inr rfl,
    Image.size_of_fits { width := 640, height := 480, depth := 24, data := none } (Or.inr rfl)
      (by decide)⟩

/-- C6 at the failing input: the image of width 65535, height 65535 and depth
24 has fields in range and a legal depth, its byte count is 12884508675, and
`Image::size()` returns 18446744073709158403: the product of the width and the
height does not fit a 32 bit `int`. -/
theorem Image.size_wraps_at_65535 :
    ({ width := 65535, height := 65535, depth := 24, data := none } : Image).wellTyped ∧
    65535 * 65535 * (24 / 8) = 12884508675 ∧
    wrapInt32 (65535 * 65535) = -131071 ∧
    ({ width := 65535, height := 65535, depth := 24, data := none } : Image).size
      = 18446744073709158403 ∧
    ({ width := 65535, height := 65535, depth := 24, data := none } : Image).size
      ≠ 65535 * 65535 * (24 / 8) := by
  decide

/-! ## The printer of ReturnCode -/

theorem ReturnCode.mem_enumerators_of_range (rc : ReturnCode) (h0 : 0 ≤ rc.val)
    (h1 : rc.val ≤ 12) : rc ∈ ReturnCode.enumerators := by
  obtain ⟨v⟩ := rc
  simp only at h0 h1
  interval_cases v <;> decide

theorem ReturnCode.print_out_of_range (rc : ReturnCode) (h : rc.val < 0 ∨ 12 < rc.val) :
    rc.print = "Undefined error" := by
  obtain ⟨v⟩ := rc
  simp only at h
  unfold ReturnCode.print
  simp only [ReturnCode.Success, ReturnCode.ConfigError, ReturnCode.RefuseInput,
    ReturnCode.ExtractError, ReturnCode.ParseError, ReturnCode.TemplateCreationError,
    ReturnCode.VerifTemplateError, ReturnCode.NumDataError, ReturnCode.TemplateFormatError,
    ReturnCode.EnrollDirError, ReturnCode.InputLocationError, ReturnCode.GPUError,
    ReturnCode.VendorError, ReturnCode.mk.injEq]
  repeat rw [if_neg (by omega)]

/-- C10: the thirteen enumerators `Success` .. `VendorError` have the values
0 .. 12 in order (`Success` is 0); the printer writes pairwise distinct,
non-empty texts for the values 0 .. 12, none of them "Undefined error", and
writes "Undefined error" for every other value. -/
theorem ReturnCode.print_injective_on_enumerators :
    ReturnCode.enumerators.map ReturnCode.val = [0, 1, 2, 3, 4, 5, 6, 7, 8, 9, 10, 11, 12] ∧
    ReturnCode.Success.val = 0 ∧
    (∀ a b : ReturnCode, 0 ≤ a.val → a.val ≤ 12 → 0 ≤ b.val → b.val ≤ 12 →
      a.print = b.print → a = b) ∧
    (∀ a : ReturnCode, 0 ≤ a.val → a.val ≤ 12 →
      a.print ≠ "" ∧ a.print ≠ "Undefined error") ∧
    (∀ rc : ReturnCode, rc.val < 0 ∨ 12 < rc.val → rc.print = "Undefined error") := by
  have hnodup : (ReturnCode.enumerators.map ReturnCode.print).Nodup := by decide
  have hall : ∀ a ∈ ReturnCode.enumerators, a.print ≠ "" ∧ a.print ≠ "Undefined error" := by
    decide
  refine ⟨by decide, rfl, ?_, ?_, ReturnCode.print_out_of_range⟩
  · intro a b ha0 ha1 hb0 hb1 hab
    exact List.inj_on_of_nodup_map hnodup (ReturnCode.mem_enumerators_of_range a ha0 ha1)
      (ReturnCode.mem_enumerators_of_range b hb0 hb1) hab
  · intro a ha0 ha1
    exact hall a (ReturnCode.mem_enumerators_of_range a ha0 ha1)

end FRPC
